import Mathlib

/-!
Verification of the PDF invoice-extraction service.

This file gives a shallow embedding of the Coordinate Locator
(`get_cords_of_word` in `pdf_utils.py`) and of the two API entry points
(`get_invoice_data`, `get_invoice_data_text` in `api.py`), and proves the
spec properties about them.

Modelling choices, matching the external-interface contracts:
* a PDF page is abstracted to its search capability (`page.search(s)` with
  `regex=False, case=True` returns a list of match geometries; no match is
  the empty list, never an error);
* the parsed invoice object is an insertion-ordered association list, whose
  values are either scalars (strings) or arrays of line items, each line
  item itself an insertion-ordered record of string keys and values — the
  two shapes the source code traverses;
* the external completion service, the JSON parser and the filesystem are
  oracles passed in as parameters to the endpoint models.
-/

/-- A bounding region on a page, `(x0, top, x1, bottom)`, as returned by the
page-search collaborator. -/
abbrev Geom := Nat × Nat × Nat × Nat

/-- A PDF page, abstracted to its search capability: applying the page to a
literal string gives the list of match geometries for the exact,
case-sensitive, non-regex search of that string on the page. -/
abbrev Page := String → List Geom

/-- A well-formed PDF, abstracted to its ordered list of pages. -/
abbrev PDF := List Page

/-- A value of the parsed invoice JSON object as traversed by
`get_cords_of_word`: either a scalar (searched directly on each page) or a
list of line items, each item an insertion-ordered record of string keys
and string values. -/
inductive PyVal where
  | scalar : String → PyVal
  | list : List (List (String × String)) → PyVal
deriving DecidableEq, Repr

/-- One `{"value": v, "cords": data}` record of the output. -/
structure MatchRec where
  value : String
  cords : List Geom
deriving DecidableEq, Repr

/-- The value stored under one field name in a per-page result: a single
record for a scalar field, an ordered sequence of records for an array
field. -/
inductive MatchVal where
  | scalar : MatchRec → MatchVal
  | list : List MatchRec → MatchVal
deriving DecidableEq, Repr

/-- One per-page result dictionary (`text_with_cords` in the source),
insertion-ordered. -/
abbrev PageMatch := List (String × MatchVal)

/-- The exclusion list `not_include_keys` of `get_cords_of_word`
(pdf_utils.py line 41). -/
def not_include_keys : List String :=
  ["DiscountPercent", "Quantity", "TaxCode", "UnitPrice"]

/-- The inner loop `for k, v in item.items(): ...; break` of
`get_cords_of_word` (pdf_utils.py lines 51-60): search the first key/value
pair of an array element and record one `{"value": v, "cords": data}`;
an element with no pairs contributes nothing. -/
def searchItem (page : Page) : List (String × String) → List MatchRec
  | [] => []
  | (_, v) :: _ => [{ value := v, cords := page v }]

/-- Processing of one non-excluded field on one page: an array field maps
to the concatenation of the records its elements contribute, a scalar field
to a single record (pdf_utils.py lines 48-69). -/
def processField (page : Page) : PyVal → MatchVal
  | .scalar s => .scalar { value := s, cords := page s }
  | .list items => .list (items.map (searchItem page)).flatten

/-- The per-page loop body of `get_cords_of_word` (pdf_utils.py lines
44-69): build `text_with_cords` for one page by walking the invoice
object's key/value pairs in order, skipping excluded keys (`continue`,
line 47). -/
def processPage (gpt : List (String × PyVal)) (page : Page) : PageMatch :=
  match gpt with
  | [] => []
  | kv :: rest =>
    if kv.1 ∈ not_include_keys then processPage rest page
    else (kv.1, processField page kv.2) :: processPage rest page

/-- `get_cords_of_word` (pdf_utils.py lines 29-71): one `text_with_cords`
dictionary per page, appended in page order. -/
def get_cords_of_word (gpt : List (String × PyVal)) (pdf : PDF) :
    List PageMatch :=
  pdf.map (processPage gpt)

/-- The search request the inner item loop issues for one array element:
the element's first key/value pair, or nothing for an element with no
pairs (pdf_utils.py lines 51-60, the `break` after the first pair). -/
def searchesOfItem : List (String × String) → List (String × String)
  | [] => []
  | kv :: _ => [kv]

/-- The (field-name, searched-value) pairs `get_cords_of_word` passes to
`page.search` while processing one top-level field: none when the top-level
key is excluded (pdf_utils.py lines 46-47); the field's own name and value
for a scalar field; each element's first key/value pair for an array field. -/
def fieldSearches (kv : String × PyVal) : List (String × String) :=
  if kv.1 ∈ not_include_keys then []
  else
    match kv.2 with
    | .scalar s => [(kv.1, s)]
    | .list items => (items.map searchesOfItem).flatten

/-- All search requests issued while processing one page, in issue order:
the concatenation of the per-field requests over the invoice object's
key/value pairs. They are the same on every page, because the requests
depend only on the invoice object. -/
def pageSearches : List (String × PyVal) → List (String × String)
  | [] => []
  | kv :: rest => fieldSearches kv ++ pageSearches rest

/-- The number of records stored under a field name of a per-page result,
when that field is array-valued. -/
def MatchVal.recordCount : MatchVal → Option Nat
  | .scalar _ => none
  | .list recs => some recs.length

/-- A page on which no search matches. -/
def emptyPage : Page := fun _ => []

/-- The single page of the end-to-end scenario: the literal texts "V10000"
and "Acme Associates" each occur at one place, "A00001" does not occur. -/
def scenarioPage : Page := fun s =>
  if s = "V10000" then [(10, 72, 60, 84)]
  else if s = "Acme Associates" then [(10, 100, 120, 112)]
  else []

/-- The invoice object of the end-to-end scenario. -/
def scenarioInvoice : List (String × PyVal) :=
  [("CardCode", .scalar "V10000"),
   ("CardName", .scalar "Acme Associates"),
   ("DocumentLines", .list [[("ItemCode", "A00001")]])]

/-- The page loop of `get_cords_of_word` (pdf_utils.py lines 43-70) with
exception propagation made explicit: reading a page may raise (an
`Except.error` page); the first raise aborts the whole scan and the
locally accumulated `all_pages_data` is discarded. -/
def scanPages (gpt : List (String × PyVal)) :
    List (Except String Page) → Except String (List PageMatch)
  | [] => .ok []
  | .error e :: _ => .error e
  | .ok page :: rest =>
    match scanPages gpt rest with
    | .error e => .error e
    | .ok pms => .ok (processPage gpt page :: pms)

/-- `get_cords_of_word` with its fallible PDF access made explicit:
`pdfplumber.open` (pdf_utils.py line 42) may fail, and any page-read
failure during the scan aborts the whole call; in either case the error
propagates to the caller and no partial per-page list is returned. -/
def get_cords_of_word_exc (gpt : List (String × PyVal))
    (opened : Except String (List (Except String Page))) :
    Except String (List PageMatch) :=
  match opened with
  | .error e => .error e
  | .ok pages => scanPages gpt pages

/-- Outcome of an API endpoint: a successful JSON response, or an
`HTTPException` with a status code and a detail message. -/
inductive ApiResult (α : Type) where
  | ok : α → ApiResult α
  | httpError : Nat → String → ApiResult α
deriving DecidableEq, Repr

/-- An external action of the text/image endpoints: a call to the
completion service, or an access to the PDF on disk. -/
inductive ExtCall where
  | completionService : ExtCall
  | pdfAccess : ExtCall
deriving DecidableEq, Repr

/-- One element of the list returned by the text endpoint: the parsed
invoice JSON object (inserted at position 0), or one per-page coordinate
dictionary. -/
inductive ResItem where
  | json : List (String × PyVal) → ResItem
  | pageMatch : PageMatch → ResItem
deriving DecidableEq, Repr

/-- The `/getInvoiceData/image` endpoint `get_invoice_data` (api.py lines
139-161), with the completion service and `json.loads` as oracles. It
returns the endpoint's outcome together with the ordered log of external
actions performed. An empty image-URL list is rejected with a 400 before
the `try` block; any later failure becomes a 500 carrying the message. -/
def get_invoice_data (imageUrl : List String)
    (completion : List String → Except String String)
    (jsonLoads : String → Except String (List (String × PyVal))) :
    ApiResult (List (String × PyVal)) × List ExtCall :=
  if imageUrl.isEmpty then
    (.httpError 400 "No image URLs provided", [])
  else
    match completion imageUrl with
    | .error e => (.httpError 500 e, [.completionService])
    | .ok result =>
      match jsonLoads result with
      | .error e => (.httpError 500 e, [.completionService])
      | .ok j => (.ok j, [.completionService])

/-- The `/getInvoiceData/text` endpoint `get_invoice_data_text` (api.py
lines 163-189), with `extract_invoice_data_pdf`, the completion service,
`json.loads` and the `pdfplumber.open` of `get_cords_of_word` as oracles.
It returns the endpoint's outcome together with the ordered log of
external actions. An empty `pdf_path` (falsy in Python) is rejected with a
400 before the `try` block; any failure inside the `try` becomes a 500
carrying the underlying message. -/
def get_invoice_data_text (pdf_path : String)
    (extractText : String → Except String String)
    (completion : String → Except String String)
    (jsonLoads : String → Except String (List (String × PyVal)))
    (openPdf : String → Except String (List (Except String Page))) :
    ApiResult (List ResItem) × List ExtCall :=
  if pdf_path = "" then
    (.httpError 400 "No text provided", [])
  else
    match extractText pdf_path with
    | .error e => (.httpError 500 e, [.pdfAccess])
    | .ok txt =>
      match completion txt with
      | .error e => (.httpError 500 e, [.pdfAccess, .completionService])
      | .ok raw =>
        match jsonLoads raw with
        | .error e => (.httpError 500 e, [.pdfAccess, .completionService])
        | .ok gpt =>
          match get_cords_of_word_exc gpt (openPdf pdf_path) with
          | .error e =>
            (.httpError 500 e, [.pdfAccess, .completionService, .pdfAccess])
          | .ok res =>
            (.ok (ResItem.json gpt :: res.map ResItem.pageMatch),
             [.pdfAccess, .completionService, .pdfAccess])

/-- State-passing embedding of the Coordinate Locator for the frame
property: the parsed invoice object is the only caller-visible mutable
object the locator receives, so it is threaded as the state; every use of
it in the source is a read (`gpt_json_data.items()`, pdf_utils.py line
45), and the source contains no statement writing into it. -/
def readInvoice : StateM (List (String × PyVal)) (List (String × PyVal)) :=
  fun s => (s, s)

/-- One iteration of the key/value loop (pdf_utils.py lines 45-69) in the
state-passing embedding: extend `text_with_cords` unless the key is
excluded; the invoice state is not written. -/
def processFieldM (page : Page) (tw : PageMatch) (kv : String × PyVal) :
    StateM (List (String × PyVal)) PageMatch :=
  pure (if kv.1 ∈ not_include_keys then tw
        else tw ++ [(kv.1, processField page kv.2)])

/-- One page of the scan in the state-passing embedding: read the invoice
object and fold the key/value loop over it. -/
def processPageM (page : Page) : StateM (List (String × PyVal)) PageMatch := do
  let gpt ← readInvoice
  gpt.foldlM (processFieldM page) []

/-- The whole scan of `get_cords_of_word` in the state-passing embedding:
process each page in order, appending to `all_pages_data`. -/
def get_cords_of_word_m : PDF → StateM (List (String × PyVal)) (List PageMatch)
  | [] => pure []
  | page :: rest => do
    let pm ← processPageM page
    let pms ← get_cords_of_word_m rest
    pure (pm :: pms)

/-! ## Supporting lemmas -/

/-- Every per-page result is the processing of some page of the PDF. -/
theorem mem_get_cords_of_word {gpt : List (String × PyVal)} {pdf : PDF}
    {pm : PageMatch} (h : pm ∈ get_cords_of_word gpt pdf) :
    ∃ page ∈ pdf, processPage gpt page = pm := by
  simpa [get_cords_of_word] using h

/-- The key sequence of one processed page is the invoice object's key
sequence with the excluded names removed; it does not depend on the page. -/
theorem processPage_keys (gpt : List (String × PyVal)) (page : Page) :
    (processPage gpt page).map Prod.fst =
      (gpt.map Prod.fst).filter (fun k => k ∉ not_include_keys) := by
  induction gpt with
  | nil => rfl
  | cons kv rest ih =>
    by_cases h : kv.1 ∈ not_include_keys
    · simpa [processPage, List.filter_cons, h] using ih
    · simpa [processPage, List.filter_cons, h] using ih

/-- Every key appearing in a processed page is outside the exclusion list. -/
theorem processPage_mem_keys {gpt : List (String × PyVal)} {page : Page}
    {kv : String × MatchVal} (h : kv ∈ processPage gpt page) :
    kv.1 ∉ not_include_keys := by
  induction gpt with
  | nil => simp [processPage] at h
  | cons kv0 rest ih =>
    by_cases h0 : kv0.1 ∈ not_include_keys
    · rw [processPage, if_pos h0] at h
      exact ih h
    · rw [processPage, if_neg h0] at h
      rcases List.mem_cons.mp h with rfl | h2
      · exact h0
      · exact ih h2

/-- Looking up a non-excluded key of the invoice object in a processed page
gives the processed field of its value (keys of a Python dict are unique). -/
theorem processPage_lookup {gpt : List (String × PyVal)} {k : String}
    {v : PyVal} (page : Page) (hnd : (gpt.map Prod.fst).Nodup)
    (hmem : (k, v) ∈ gpt) (hk : k ∉ not_include_keys) :
    (processPage gpt page).lookup k = some (processField page v) := by
  induction gpt with
  | nil => cases hmem
  | cons kv rest ih =>
    have hnd2 : (rest.map Prod.fst).Nodup := (List.nodup_cons.mp (by simpa using hnd)).2
    rcases List.mem_cons.mp hmem with heq | hmem2
    · rw [processPage, heq.symm, if_neg hk]
      simp [List.lookup]
    · have hk0 : kv.1 ≠ k := by
        intro hEq
        have hin : k ∈ rest.map Prod.fst :=
          List.mem_map.mpr ⟨(k, v), hmem2, rfl⟩
        exact (List.nodup_cons.mp (by simpa using hnd)).1 (hEq ▸ hin)
      by_cases h : kv.1 ∈ not_include_keys
      · rw [processPage, if_pos h]
        exact ih hnd2 hmem2
      · have hb : (k == kv.1) = false := beq_eq_false_iff_ne.mpr (Ne.symm hk0)
        rw [processPage, if_neg h]
        simp only [List.lookup_cons, hb]
        exact ih hnd2 hmem2

/-- An array field with only non-empty elements contributes exactly one
record per element. -/
theorem flatten_searchItem_length (page : Page)
    (items : List (List (String × String))) (hne : ∀ it ∈ items, it ≠ []) :
    ((items.map (searchItem page)).flatten).length = items.length := by
  induction items with
  | nil => rfl
  | cons it rest ih =>
    cases it with
    | nil => exact absurd rfl (hne [] (List.mem_cons_self _ _))
    | cons kv tl =>
      simp only [List.map_cons, List.flatten_cons, searchItem,
        List.singleton_append, List.length_cons]
      exact congrArg Nat.succ (ih fun x hx => hne x (List.mem_cons_of_mem _ hx))

/-- A non-empty element's search request is its first key/value pair. -/
theorem searchesOfItem_ne {it : List (String × String)} (h : it ≠ []) :
    searchesOfItem it = [it.headI] := by
  cases it with
  | nil => exact absurd rfl h
  | cons kv tl => rfl

/-- An array of non-empty elements issues exactly the first pair of each
element as its search requests, in element order. -/
theorem flatten_searchesOfItem (items : List (List (String × String)))
    (hne : ∀ it ∈ items, it ≠ []) :
    (items.map searchesOfItem).flatten = items.map List.headI := by
  induction items with
  | nil => rfl
  | cons it rest ih =>
    rw [List.map_cons, List.flatten_cons,
      searchesOfItem_ne (hne it (List.mem_cons_self _ _)),
      ih (fun x hx => hne x (List.mem_cons_of_mem _ hx)), List.map_cons,
      List.singleton_append]

/-- Running the folded key/value loop: it is the pure fold of the loop body
and leaves the state untouched. -/
theorem foldlM_processFieldM (page : Page) (gpt : List (String × PyVal))
    (acc : PageMatch) (s : List (String × PyVal)) :
    (gpt.foldlM (processFieldM page) acc).run s =
      (gpt.foldl (fun tw kv =>
        if kv.1 ∈ not_include_keys then tw
        else tw ++ [(kv.1, processField page kv.2)]) acc, s) := by
  induction gpt generalizing acc with
  | nil => rfl
  | cons kv rest ih =>
    show (rest.foldlM (processFieldM page)
        (if kv.1 ∈ not_include_keys then acc
         else acc ++ [(kv.1, processField page kv.2)])).run s = _
    rw [ih, List.foldl_cons]

/-- The pure fold of the key/value loop body computes `processPage`. -/
theorem foldl_step_processPage (page : Page) (gpt : List (String × PyVal))
    (acc : PageMatch) :
    gpt.foldl (fun tw kv =>
        if kv.1 ∈ not_include_keys then tw
        else tw ++ [(kv.1, processField page kv.2)]) acc =
      acc ++ processPage gpt page := by
  induction gpt generalizing acc with
  | nil => simp [processPage]
  | cons kv rest ih =>
    by_cases h : kv.1 ∈ not_include_keys
    · simp [processPage, h, ih]
    · simp [processPage, h, ih]

/-- Running one page of the state-passing scan: it computes `processPage`
and leaves the invoice state untouched. -/
theorem processPageM_run (page : Page) (s : List (String × PyVal)) :
    (processPageM page).run s = (processPage s page, s) := by
  show (s.foldlM (processFieldM page) []).run s = _
  rw [foldlM_processFieldM, foldl_step_processPage, List.nil_append]

/-! ## The claims -/

/-- Claim C1, counterexample: on an invoice object whose DocumentLines
element has the excluded name "Quantity" as its first key, the locator
does issue a page search for a value whose field name is in the exclusion
set — the exclusion set is consulted only for top-level keys. -/
theorem C1_counterexample :
    "Quantity" ∈ not_include_keys ∧
      ("Quantity", "100") ∈
        pageSearches [("DocumentLines", PyVal.list [[("Quantity", "100")]])] := by
  decide

/-- Claim C1, amended: the Coordinate Locator never issues a page search on
behalf of a top-level field whose name is in the exclusion set — removing
all such fields from the invoice object leaves the issued search requests
unchanged; keys nested inside elements of array-valued fields, however, are
not checked against the exclusion set. -/
theorem C1_exclusion_top_level (gpt : List (String × PyVal)) :
    pageSearches gpt =
      pageSearches (gpt.filter (fun kv => kv.1 ∉ not_include_keys)) := by
  induction gpt with
  | nil => rfl
  | cons kv rest ih =>
    by_cases h : kv.1 ∈ not_include_keys
    · simp [pageSearches, List.filter_cons, h, fieldSearches, ih]
    · simp [pageSearches, List.filter_cons, h, ih]

/-- Claim C2, counterexample: for the invoice whose DocumentLines array has
exactly one element, the empty object, the DocumentLines entry of the
single PageMatch holds zero records while the array has one element — an
empty element contributes no record. -/
theorem C2_counterexample :
    get_cords_of_word [("DocumentLines", PyVal.list [[]])] [emptyPage] =
      [[("DocumentLines", MatchVal.list [])]] ∧
    ([] : List MatchRec).length ≠
      ([[]] : List (List (String × String))).length := by
  decide

/-- Claim C2, amended: for a non-excluded array-valued field all of whose
elements are non-empty objects, the PageMatch entry for that field on every
page is a sequence of exactly one record per element, regardless of search
success; an element that is an empty object contributes no record. -/
theorem C2_array_cardinality (gpt : List (String × PyVal)) (pdf : PDF)
    (k : String) (items : List (List (String × String)))
    (hnd : (gpt.map Prod.fst).Nodup) (hmem : (k, PyVal.list items) ∈ gpt)
    (hk : k ∉ not_include_keys) (hne : ∀ it ∈ items, it ≠ [])
    (pm : PageMatch) (hpm : pm ∈ get_cords_of_word gpt pdf) :
    (pm.lookup k).bind MatchVal.recordCount = some items.length := by
  obtain ⟨page, -, rfl⟩ := mem_get_cords_of_word hpm
  rw [processPage_lookup page hnd hmem hk]
  simp [processField, MatchVal.recordCount,
    flatten_searchItem_length page items hne]

theorem C2_witness :
    (([("DocumentLines", MatchVal.list [⟨"A00001", []⟩])] : PageMatch).lookup
        "DocumentLines").bind MatchVal.recordCount = some 1 :=
  C2_array_cardinality
    [("DocumentLines", PyVal.list [[("ItemCode", "A00001")]])] [emptyPage]
    "DocumentLines" [[("ItemCode", "A00001")]] (by decide) (by decide)
    (by decide) (by decide) [("DocumentLines", MatchVal.list [⟨"A00001", []⟩])]
    (by decide)

/-- Claim C3: end-to-end scenario — for the invoice object
CardCode "V10000", CardName "Acme Associates",
DocumentLines [{ItemCode "A00001"}] and a one-page PDF on which "V10000"
and "Acme Associates" are each found at one place but "A00001" is not, the
locator returns a single PageMatch mapping CardCode and CardName to their
values with one non-empty geometry list each, and DocumentLines to a
one-element sequence whose entry has an empty geometry list. -/
theorem C3_scenario :
    get_cords_of_word scenarioInvoice [scenarioPage] =
      [[("CardCode", .scalar ⟨"V10000", [(10, 72, 60, 84)]⟩),
        ("CardName", .scalar ⟨"Acme Associates", [(10, 100, 120, 112)]⟩),
        ("DocumentLines", .list [⟨"A00001", []⟩])]] := by
  decide

/-- Claim C4: the sequence returned by the locator has exactly one
PageMatch per page of the PDF: its length equals the page count. -/
theorem C4_page_count (gpt : List (String × PyVal)) (pdf : PDF) :
    (get_cords_of_word gpt pdf).length = pdf.length := by
  simp [get_cords_of_word]

/-- Claim C5, counterexample: for a DocumentLines array with exactly one
element, the empty object, no page search at all is issued for that
element — not exactly one per element. -/
theorem C5_counterexample :
    pageSearches [("DocumentLines", PyVal.list [[]])] = [] ∧
    ([[]] : List (List (String × String))).length = 1 := by
  decide

/-- Claim C5, amended: for a non-excluded array-valued field, each element
with at least one key/value pair gives rise to exactly one page search, for
that element's first value; the remaining keys of an element are never
searched, and an element with no pairs gives rise to no search at all. -/
theorem C5_first_pair_only (k : String)
    (items : List (List (String × String))) (hk : k ∉ not_include_keys)
    (hne : ∀ it ∈ items, it ≠ []) :
    fieldSearches (k, PyVal.list items) = items.map List.headI := by
  rw [show fieldSearches (k, PyVal.list items) =
      (items.map searchesOfItem).flatten from by simp [fieldSearches, hk]]
  exact flatten_searchesOfItem items hne

theorem C5_witness :
    fieldSearches ("DocumentLines",
        PyVal.list [[("ItemCode", "A00001"), ("Quantity", "100")]]) =
      [("ItemCode", "A00001")] :=
  C5_first_pair_only "DocumentLines"
    [[("ItemCode", "A00001"), ("Quantity", "100")]] (by decide) (by decide)

/-- Claim C6: none of the excluded field names ever appears as a key of any
PageMatch of the locator's output, on any page. -/
theorem C6_exclusion_invariant (gpt : List (String × PyVal)) (pdf : PDF)
    (pm : PageMatch) (hpm : pm ∈ get_cords_of_word gpt pdf)
    (kv : String × MatchVal) (hkv : kv ∈ pm) :
    kv.1 ∉ not_include_keys := by
  obtain ⟨page, -, rfl⟩ := mem_get_cords_of_word hpm
  exact processPage_mem_keys hkv

theorem C6_witness :
    ("CardCode", MatchVal.scalar ⟨"V10000", []⟩).1 ∉ not_include_keys :=
  C6_exclusion_invariant [("CardCode", PyVal.scalar "V10000")] [emptyPage]
    [("CardCode", MatchVal.scalar ⟨"V10000", []⟩)] (by decide)
    ("CardCode", MatchVal.scalar ⟨"V10000", []⟩) (by decide)

/-- Claim C7: the image endpoint on an empty image-URL list and the text
endpoint on an empty PDF path are each rejected with a 400 missing-input
error and an empty external-action log: no completion-service call and no
PDF access is attempted, whatever the collaborators would have returned. -/
theorem C7_missing_input_rejection
    (completionI : List String → Except String String)
    (jsonLoads : String → Except String (List (String × PyVal)))
    (extractText : String → Except String String)
    (completionT : String → Except String String)
    (openPdf : String → Except String (List (Except String Page))) :
    get_invoice_data [] completionI jsonLoads =
      (.httpError 400 "No image URLs provided", []) ∧
    get_invoice_data_text "" extractText completionT jsonLoads openPdf =
      (.httpError 400 "No text provided", []) :=
  ⟨rfl, rfl⟩

/-- Claim C8: when the Coordinate Locator's scan fails with a PDF
open/read error, the text endpoint fails as a whole with a single 500
carrying the underlying message; no partial per-page list is returned. -/
theorem C8_scan_failure (pdf_path txt raw e : String)
    (gpt : List (String × PyVal))
    (extractText : String → Except String String)
    (completionT : String → Except String String)
    (jsonLoads : String → Except String (List (String × PyVal)))
    (openPdf : String → Except String (List (Except String Page)))
    (hp : pdf_path ≠ "")
    (h1 : extractText pdf_path = .ok txt)
    (h2 : completionT txt = .ok raw)
    (h3 : jsonLoads raw = .ok gpt)
    (h4 : get_cords_of_word_exc gpt (openPdf pdf_path) = .error e) :
    get_invoice_data_text pdf_path extractText completionT jsonLoads openPdf =
      (.httpError 500 e, [.pdfAccess, .completionService, .pdfAccess]) := by
  simp [get_invoice_data_text, hp, h1, h2, h3, h4]

theorem C8_witness :
    get_invoice_data_text "invoice.pdf" (fun _ => .ok "text")
      (fun _ => .ok "raw") (fun _ => .ok [])
      (fun _ => .error "No such file or directory") =
      (.httpError 500 "No such file or directory",
       [.pdfAccess, .completionService, .pdfAccess]) :=
  C8_scan_failure "invoice.pdf" "text" "raw" "No such file or directory" []
    (fun _ => .ok "text") (fun _ => .ok "raw") (fun _ => .ok [])
    (fun _ => .error "No such file or directory") (by decide) rfl rfl rfl rfl

/-- Claim C9: the locator never mutates the invoice object: running the
state-passing embedding, with the invoice object as the state, returns the
pure result together with a final state exactly equal to the input invoice
object, for every invoice object and PDF. -/
theorem C9_no_mutation (gpt : List (String × PyVal)) (pdf : PDF) :
    (get_cords_of_word_m pdf).run gpt = (get_cords_of_word gpt pdf, gpt) := by
  induction pdf with
  | nil => rfl
  | cons page rest ih =>
    simp [get_cords_of_word_m, processPageM_run, ih, get_cords_of_word]

/-- Claim C10: every PageMatch of the output has the same key sequence:
the invoice object's non-excluded top-level field names, in the object's
key order, identical on every page. -/
theorem C10_uniform_keys (gpt : List (String × PyVal)) (pdf : PDF)
    (pm : PageMatch) (hpm : pm ∈ get_cords_of_word gpt pdf) :
    pm.map Prod.fst =
      (gpt.map Prod.fst).filter (fun k => k ∉ not_include_keys) := by
  obtain ⟨page, -, rfl⟩ := mem_get_cords_of_word hpm
  exact processPage_keys gpt page

theorem C10_witness :
    ([("CardCode", MatchVal.scalar ⟨"V10000", []⟩)] : PageMatch).map Prod.fst =
      ([("CardCode", PyVal.scalar "V10000"),
        ("Quantity", PyVal.scalar "5")].map Prod.fst).filter
        (fun k => k ∉ not_include_keys) :=
  C10_uniform_keys
    [("CardCode", PyVal.scalar "V10000"), ("Quantity", PyVal.scalar "5")]
    [emptyPage] [("CardCode", MatchVal.scalar ⟨"V10000", []⟩)] (by decide)
